import Mathlib

/-
Shallow embedding of the lindbladmpo example-suite topology tables
(src/lindbladmpo/examples/qubit_driving/topologies.py) and of the
solver-model test suite (src/test/models/test_model.py), together with
theorems settling the specification claims about them.

Conventions of the embedding:
  * Python `range(a, b)` and `range(a, b, 2)` become `pyRange` and `pyRange2`.
  * Python dictionaries become association lists built in registration order;
    `d[k]` (which raises KeyError on a missing key) becomes `dictGet`, which
    returns `none` on a missing key.  No key is registered twice (proved
    below), so first-match lookup agrees with Python's last-write-wins.
  * All numeric data in the tables is non-negative, so qubit indices,
    coordinates and field-pattern values are carried as `Nat`.
-/

namespace Topologies

/-- Python `range(a, b)`: the list `a, a+1, ..., b-1` (empty when `b ≤ a`). -/
def pyRange (a b : Nat) : List Nat :=
  (List.range (b - a)).map (fun k => a + k)

/-- Python `range(a, b, 2)`: the list `a, a+2, ...` strictly below `b`. -/
def pyRange2 (a b : Nat) : List Nat :=
  (List.range ((b - a + 1) / 2)).map (fun k => a + 2 * k)

/-- Loop of `_create_ring_A` that fills `h_z_pat` after the initial 0:
for each iteration of `for i in range(1, n_qubits - 2, 2)` it appends the
current value twice and toggles it (`h_z_ = 0 if h_z_ == 1 else 1`), and
after the loop the final `h_z_pat.append(h_z_)` appends the value once more. -/
def ringALoopPat : List Nat → Nat → List Nat
  | [], h => [h]
  | _ :: rest, h => h :: h :: ringALoopPat rest (if h = 1 then 0 else 1)

/-- Embedding of `_create_ring_A(n_qubits, i_offset)`: returns the coupling
map, qubit coordinates and alternating 0-1 field pattern of the
ladder-ordered ring. -/
def create_ring_A (n_qubits : Nat) (i_offset : Nat := 0) :
    List (List Nat) × List (List Nat) × List Nat :=
  let loop_is := pyRange2 1 (n_qubits - 2)
  let c_map :=
    [[i_offset, i_offset + 1], [i_offset, i_offset + 2]]
      ++ (pyRange (i_offset + 1) (i_offset + n_qubits - 2)).map (fun i => [i, i + 2])
      ++ [[i_offset + n_qubits - 2, i_offset + n_qubits - 1]]
  let q_coordinates :=
    [[1, 1]]
      ++ loop_is.flatMap (fun i => [[2 + i / 2, 0], [2 + i / 2, 2]])
      ++ [[1 + n_qubits / 2, 1]]
  let h_z_pat := 0 :: ringALoopPat loop_is 1
  (c_map, q_coordinates, h_z_pat)

/-- Path coupling map `[[i, i + 1] for i in range(n_qubits - 1)]`, shared by
the two chain families and (before the closing edge) by ring "B". -/
def path_cMap (n_qubits : Nat) : List (List Nat) :=
  (List.range (n_qubits - 1)).map (fun i => [i, i + 1])

/-- Chain coordinates `[0, i]` for each qubit, shared by both chain variants. -/
def chain_coords (n_qubits : Nat) : List (List Nat) :=
  (List.range n_qubits).map (fun i => [0, i])

/-- The parity origin of the chain-"M" field pattern:
`driven_qubit_is_odd = 1 if (n_qubits - 1) % 4 != 0 else 0`. -/
def chainM_driven (n_qubits : Nat) : Nat :=
  if (n_qubits - 1) % 4 ≠ 0 then 1 else 0

/-- Chain-"M" field pattern: `0 if i % 2 == driven_qubit_is_odd else 1`. -/
def chainM_pat (n_qubits : Nat) : List Nat :=
  (List.range n_qubits).map (fun i => if i % 2 = chainM_driven n_qubits then 0 else 1)

/-- Chain-"E" field pattern: `0 if i % 2 == 0 else 1`. -/
def chainE_pat (n_qubits : Nat) : List Nat :=
  (List.range n_qubits).map (fun i => if i % 2 = 0 then 0 else 1)

/-- Ring-"B" coupling map: the path graph plus the closing edge
`[n_qubits - 1, 0]`. -/
def ringB_cMap (n_qubits : Nat) : List (List Nat) :=
  path_cMap n_qubits ++ [[n_qubits - 1, 0]]

/-- Ring-"B" field pattern: `0 if i % 2 == 0 else 1` for each qubit. -/
def ringB_pat (n_qubits : Nat) : List Nat :=
  (List.range n_qubits).map (fun i => if i % 2 = 0 then 0 else 1)

/-- Ring-"B" coordinates: `[1, 1]`, a bottom row `[i, 0]` for `i` in
`range(2, N_by_2 + 1)`, the point `[N_by_2 + 1, 1]`, and a top row `[i, 2]`
for `i` in `range(N_by_2, 1, -1)`. -/
def ringB_coords (n_qubits : Nat) : List (List Nat) :=
  let N_by_2 := n_qubits / 2
  [[1, 1]]
    ++ (pyRange 2 (N_by_2 + 1)).map (fun i => [i, 0])
    ++ [[N_by_2 + 1, 1]]
    ++ ((pyRange 2 (N_by_2 + 1)).reverse).map (fun i => [i, 2])

/-- Embedding of the plaquette-"A" construction loop body: ring "A" on
`n_qubits - 2` qubits at offset 1, one extra qubit 0 attached to qubit 1,
one extra qubit `n_qubits - 1` attached to qubit `n_qubits - 2`, the ring
pattern inverted (`1 if h_z == 0 else 0`) between two boundary zeros, and
the final coordinate one step past the ring's last coordinate. -/
def plaqA (n_qubits : Nat) : List (List Nat) × List (List Nat) × List Nat :=
  let r := create_ring_A (n_qubits - 2) 1
  let c_map := [[0, 1]] ++ r.1 ++ [[n_qubits - 2, n_qubits - 1]]
  let q_coord_end := r.2.1.getLastD [0, 0]
  let q_coordinates :=
    [[0, 1]] ++ r.2.1 ++ [[q_coord_end.getD 0 0 + 1, q_coord_end.getD 1 0]]
  let h_z_pat := [0] ++ r.2.2.map (fun h => if h = 0 then 1 else 0) ++ [0]
  (c_map, q_coordinates, h_z_pat)

/-- Literal coupling map registered under key "10.plaquette.B". -/
def cMap_plaqB10 : List (List Nat) := [
  [0, 1], [1, 2], [2, 3], [3, 4], [4, 5], [5, 6], [5, 7], [7, 8],
  [8, 9], [9, 1]
]

/-- Literal qubit coordinates registered under key "10.plaquette.B". -/
def coords_plaqB10 : List (List Nat) := [
  [0, 1], [1, 1], [2, 0], [3, 0], [4, 0], [5, 1], [6, 1], [4, 2],
  [3, 2], [2, 2]
]

/-- Literal field pattern registered under key "10.plaquette.B". -/
def pat_plaqB10 : List Nat := [0, 1, 0, 1, 0, 1, 0, 0, 1, 0]

/-- Literal coupling map registered under key "12.plaquette.B". -/
def cMap_plaqB12 : List (List Nat) := [
  [0, 1], [1, 2], [2, 3], [3, 4], [4, 5], [5, 6], [6, 7], [6, 8],
  [8, 9], [9, 10], [10, 11], [11, 1]
]

/-- Literal qubit coordinates registered under key "12.plaquette.B". -/
def coords_plaqB12 : List (List Nat) := [
  [0, 1], [1, 1], [2, 0], [3, 0], [4, 0], [5, 0], [6, 1], [7, 1],
  [5, 2], [4, 2], [3, 2], [2, 2]
]

/-- Literal field pattern registered under key "12.plaquette.B". -/
def pat_plaqB12 : List Nat := [0, 1, 0, 1, 0, 1, 1, 0, 1, 0, 1, 0]

/-- Literal coupling map registered under key "27.falcon". -/
def cMap_falcon27 : List (List Nat) := [
  [0, 1], [1, 2], [1, 4], [2, 3], [3, 5], [4, 7], [5, 8], [6, 7],
  [7, 10], [8, 9], [8, 11], [10, 12], [11, 14], [12, 13], [12, 15], [13, 14],
  [14, 16], [15, 18], [16, 19], [17, 18], [18, 21], [19, 20], [19, 22], [21, 23],
  [22, 25], [23, 24], [24, 25], [25, 26]
]

/-- Literal qubit coordinates registered under key "27.falcon". -/
def coords_falcon27 : List (List Nat) := [
  [1, 0], [1, 1], [2, 1], [3, 1], [1, 2], [3, 2], [0, 3], [1, 3],
  [3, 3], [4, 3], [1, 4], [3, 4], [1, 5], [2, 5], [3, 5], [1, 6],
  [3, 6], [0, 7], [1, 7], [3, 7], [4, 7], [1, 8], [3, 8], [1, 9],
  [2, 9], [3, 9], [3, 10]
]

/-- Literal all-zero field pattern registered under key "27.falcon". -/
def pat_falcon27 : List Nat := List.replicate 27 0

/-- Literal coupling map registered under key "7.falcon". -/
def cMap_falcon7 : List (List Nat) := [
  [0, 1], [1, 2], [1, 3], [3, 5], [4, 5], [5, 6]
]

/-- Literal qubit coordinates registered under key "7.falcon". -/
def coords_falcon7 : List (List Nat) := [
  [1, 0], [1, 1], [1, 2], [2, 1], [3, 0], [3, 1], [3, 2]
]

/-- Literal all-zero field pattern registered under key "7.falcon". -/
def pat_falcon7 : List Nat := List.replicate 7 0

/-- Literal coupling map registered under key "127.eagle". -/
def cMap_eagle127 : List (List Nat) := [
  [0, 1], [0, 14], [1, 0], [1, 2], [2, 1], [2, 3], [3, 2], [3, 4],
  [4, 3], [4, 5], [4, 15], [5, 4], [5, 6], [6, 5], [6, 7], [7, 6],
  [7, 8], [8, 7], [8, 16], [9, 10], [10, 9], [10, 11], [11, 10], [11, 12],
  [12, 11], [12, 13], [12, 17], [13, 12], [14, 0], [14, 18], [15, 4], [15, 22],
  [16, 8], [16, 26], [17, 12], [17, 30], [18, 14], [18, 19], [19, 18], [19, 20],
  [20, 19], [20, 21], [20, 33], [21, 20], [21, 22], [22, 15], [22, 21], [22, 23],
  [23, 22], [23, 24], [24, 23], [24, 25], [24, 34], [25, 24], [25, 26], [26, 16],
  [26, 25], [26, 27], [27, 26], [27, 28], [28, 27], [28, 29], [28, 35], [29, 28],
  [29, 30], [30, 17], [30, 29], [30, 31], [31, 30], [31, 32], [32, 31], [32, 36],
  [33, 20], [33, 39], [34, 24], [34, 43], [35, 28], [35, 47], [36, 32], [36, 51],
  [37, 38], [37, 52], [38, 37], [38, 39], [39, 33], [39, 38], [39, 40], [40, 39],
  [40, 41], [41, 40], [41, 42], [41, 53], [42, 41], [42, 43], [43, 34], [43, 42],
  [43, 44], [44, 43], [44, 45], [45, 44], [45, 46], [45, 54], [46, 45], [46, 47],
  [47, 35], [47, 46], [47, 48], [48, 47], [48, 49], [49, 48], [49, 50], [49, 55],
  [50, 49], [50, 51], [51, 36], [51, 50], [52, 37], [52, 56], [53, 41], [53, 60],
  [54, 45], [54, 64], [55, 49], [55, 68], [56, 52], [56, 57], [57, 56], [57, 58],
  [58, 57], [58, 59], [58, 71], [59, 58], [59, 60], [60, 53], [60, 59], [60, 61],
  [61, 60], [61, 62], [62, 61], [62, 63], [62, 72], [63, 62], [63, 64], [64, 54],
  [64, 63], [64, 65], [65, 64], [65, 66], [66, 65], [66, 67], [66, 73], [67, 66],
  [67, 68], [68, 55], [68, 67], [68, 69], [69, 68], [69, 70], [70, 69], [70, 74],
  [71, 58], [71, 77], [72, 62], [72, 81], [73, 66], [73, 85], [74, 70], [74, 89],
  [75, 76], [75, 90], [76, 75], [76, 77], [77, 71], [77, 76], [77, 78], [78, 77],
  [78, 79], [79, 78], [79, 80], [79, 91], [80, 79], [80, 81], [81, 72], [81, 80],
  [81, 82], [82, 81], [82, 83], [83, 82], [83, 84], [83, 92], [84, 83], [84, 85],
  [85, 73], [85, 84], [85, 86], [86, 85], [86, 87], [87, 86], [87, 88], [87, 93],
  [88, 87], [88, 89], [89, 74], [89, 88], [90, 75], [90, 94], [91, 79], [91, 98],
  [92, 83], [92, 102], [93, 87], [93, 106], [94, 90], [94, 95], [95, 94], [95, 96],
  [96, 95], [96, 97], [96, 109], [97, 96], [97, 98], [98, 91], [98, 97], [98, 99],
  [99, 98], [99, 100], [100, 99], [100, 101], [100, 110], [101, 100], [101, 102], [102, 92],
  [102, 101], [102, 103], [103, 102], [103, 104], [104, 103], [104, 105], [104, 111], [105, 104],
  [105, 106], [106, 93], [106, 105], [106, 107], [107, 106], [107, 108], [108, 107], [108, 112],
  [109, 96], [109, 114], [110, 100], [110, 118], [111, 104], [111, 122], [112, 108], [112, 126],
  [113, 114], [114, 109], [114, 113], [114, 115], [115, 114], [115, 116], [116, 115], [116, 117],
  [117, 116], [117, 118], [118, 110], [118, 117], [118, 119], [119, 118], [119, 120], [120, 119],
  [120, 121], [121, 120], [121, 122], [122, 111], [122, 121], [122, 123], [123, 122], [123, 124],
  [124, 123], [124, 125], [125, 124], [125, 126], [126, 112], [126, 125]
]

/-- Literal qubit coordinates registered under key "127.eagle". -/
def coords_eagle127 : List (List Nat) := [
  [0, 0], [0, 1], [0, 2], [0, 3], [0, 4], [0, 5], [0, 6], [0, 7],
  [0, 8], [0, 9], [0, 10], [0, 11], [0, 12], [0, 13], [1, 0], [1, 4],
  [1, 8], [1, 12], [2, 0], [2, 1], [2, 2], [2, 3], [2, 4], [2, 5],
  [2, 6], [2, 7], [2, 8], [2, 9], [2, 10], [2, 11], [2, 12], [2, 13],
  [2, 14], [3, 2], [3, 6], [3, 10], [3, 14], [4, 0], [4, 1], [4, 2],
  [4, 3], [4, 4], [4, 5], [4, 6], [4, 7], [4, 8], [4, 9], [4, 10],
  [4, 11], [4, 12], [4, 13], [4, 14], [5, 0], [5, 4], [5, 8], [5, 12],
  [6, 0], [6, 1], [6, 2], [6, 3], [6, 4], [6, 5], [6, 6], [6, 7],
  [6, 8], [6, 9], [6, 10], [6, 11], [6, 12], [6, 13], [6, 14], [7, 2],
  [7, 6], [7, 10], [7, 14], [8, 0], [8, 1], [8, 2], [8, 3], [8, 4],
  [8, 5], [8, 6], [8, 7], [8, 8], [8, 9], [8, 10], [8, 11], [8, 12],
  [8, 13], [8, 14], [9, 0], [9, 4], [9, 8], [9, 12], [10, 0], [10, 1],
  [10, 2], [10, 3], [10, 4], [10, 5], [10, 6], [10, 7], [10, 8], [10, 9],
  [10, 10], [10, 11], [10, 12], [10, 13], [10, 14], [11, 2], [11, 6], [11, 10],
  [11, 14], [12, 1], [12, 2], [12, 3], [12, 4], [12, 5], [12, 6], [12, 7],
  [12, 8], [12, 9], [12, 10], [12, 11], [12, 12], [12, 13], [12, 14]
]

/-- Literal all-zero field pattern registered under key "127.eagle". -/
def pat_eagle127 : List Nat := List.replicate 127 0


/-- Registered entry of the three parallel topology tables: the key, the
qubit count used at registration, and the three per-key values. -/
structure TopologyEntry where
  key : String
  nQubits : Nat
  cMap : List (List Nat)
  coords : List (List Nat)
  pattern : List Nat
deriving DecidableEq

/-- Keys of the chain-"M" loop: `for n_qubits in range(3, 63, 2)`. -/
def chainM_ns : List Nat := pyRange2 3 63

/-- Keys of the chain-"E" loop: `for n_qubits in range(2, 63)`. -/
def chainE_ns : List Nat := pyRange 2 63

/-- Keys of the two ring loops: `for n_qubits in range(4, 64, 2)`. -/
def ring_ns : List Nat := pyRange2 4 64

/-- Keys of the plaquette-"A" loop: `for n_qubits in range(6, 64, 2)`. -/
def plaqA_ns : List Nat := pyRange2 6 64

/-- Key string of a chain-"M" topology: `f"{n_qubits}.chain.M"`. -/
def chainMKey (n_qubits : Nat) : String := Nat.repr n_qubits ++ ".chain.M"

/-- Key string of a chain-"E" topology: `f"{n_qubits}.chain.E"`. -/
def chainEKey (n_qubits : Nat) : String := Nat.repr n_qubits ++ ".chain.E"

/-- Key string of a ring-"A" topology: `f"{n_qubits}.ring.A"`. -/
def ringAKey (n_qubits : Nat) : String := Nat.repr n_qubits ++ ".ring.A"

/-- Key string of a ring-"B" topology: `f"{n_qubits}.ring.B"`. -/
def ringBKey (n_qubits : Nat) : String := Nat.repr n_qubits ++ ".ring.B"

/-- Key string of a plaquette-"A" topology: `f"{n_qubits}.plaquette.A"`. -/
def plaqAKey (n_qubits : Nat) : String := Nat.repr n_qubits ++ ".plaquette.A"

/-- One iteration of the chain-"M" registration loop. -/
def chainMEntry (n_qubits : Nat) : TopologyEntry :=
  { key := chainMKey n_qubits, nQubits := n_qubits, cMap := path_cMap n_qubits,
    coords := chain_coords n_qubits, pattern := chainM_pat n_qubits }

/-- One iteration of the chain-"E" registration loop. -/
def chainEEntry (n_qubits : Nat) : TopologyEntry :=
  { key := chainEKey n_qubits, nQubits := n_qubits, cMap := path_cMap n_qubits,
    coords := chain_coords n_qubits, pattern := chainE_pat n_qubits }

/-- One iteration of the ring-"A" registration loop. -/
def ringAEntry (n_qubits : Nat) : TopologyEntry :=
  { key := ringAKey n_qubits, nQubits := n_qubits, cMap := (create_ring_A n_qubits).1,
    coords := (create_ring_A n_qubits).2.1, pattern := (create_ring_A n_qubits).2.2 }

/-- One iteration of the ring-"B" registration loop. -/
def ringBEntry (n_qubits : Nat) : TopologyEntry :=
  { key := ringBKey n_qubits, nQubits := n_qubits, cMap := ringB_cMap n_qubits,
    coords := ringB_coords n_qubits, pattern := ringB_pat n_qubits }

/-- One iteration of the plaquette-"A" registration loop. -/
def plaqAEntry (n_qubits : Nat) : TopologyEntry :=
  { key := plaqAKey n_qubits, nQubits := n_qubits, cMap := (plaqA n_qubits).1,
    coords := (plaqA n_qubits).2.1, pattern := (plaqA n_qubits).2.2 }

/-- The literal registration under key "10.plaquette.B". -/
def plaqB10Entry : TopologyEntry :=
  { key := "10.plaquette.B", nQubits := 10, cMap := cMap_plaqB10,
    coords := coords_plaqB10, pattern := pat_plaqB10 }

/-- The literal registration under key "12.plaquette.B". -/
def plaqB12Entry : TopologyEntry :=
  { key := "12.plaquette.B", nQubits := 12, cMap := cMap_plaqB12,
    coords := coords_plaqB12, pattern := pat_plaqB12 }

/-- The literal registration under key "27.falcon". -/
def falcon27Entry : TopologyEntry :=
  { key := "27.falcon", nQubits := 27, cMap := cMap_falcon27,
    coords := coords_falcon27, pattern := pat_falcon27 }

/-- The literal registration under key "7.falcon". -/
def falcon7Entry : TopologyEntry :=
  { key := "7.falcon", nQubits := 7, cMap := cMap_falcon7,
    coords := coords_falcon7, pattern := pat_falcon7 }

/-- The literal registration under key "127.eagle". -/
def eagle127Entry : TopologyEntry :=
  { key := "127.eagle", nQubits := 127, cMap := cMap_eagle127,
    coords := coords_eagle127, pattern := pat_eagle127 }

/-- All registrations performed at module load, in source order: the five
generation loops followed by the five literal topologies. -/
def allEntries : List TopologyEntry :=
  chainM_ns.map chainMEntry
    ++ chainE_ns.map chainEEntry
    ++ ring_ns.map ringAEntry
    ++ ring_ns.map ringBEntry
    ++ plaqA_ns.map plaqAEntry
    ++ [plaqB10Entry, plaqB12Entry, falcon27Entry, falcon7Entry, eagle127Entry]

/-- The module-level dictionary `coupling_maps`, as an association list in
registration order. -/
def coupling_maps : List (String × List (List Nat)) :=
  allEntries.map (fun e => (e.key, e.cMap))

/-- The module-level dictionary `qubit_coordinates`. -/
def qubit_coordinates : List (String × List (List Nat)) :=
  allEntries.map (fun e => (e.key, e.coords))

/-- The module-level dictionary `h_z_patterns`. -/
def h_z_patterns : List (String × List Nat) :=
  allEntries.map (fun e => (e.key, e.pattern))

/-- Dictionary access `d[k]`: Python raises `KeyError` when the key is
absent, modeled by `none`; a present key yields its registered value. -/
def dictGet {α : Type} (d : List (String × α)) (k : String) : Option α :=
  (d.find? (fun p => p.1 == k)).map (fun p => p.2)

/-- The keys registered in the tables, in registration order. -/
def allKeys : List String := allEntries.map (fun e => e.key)


/-- Helper splitting a character list at dots, used to formalize the
documented key format `"{N}.{family}.{variant}"`. -/
def splitDotAux : List Char → List Char → List String
  | [], acc => [String.mk acc.reverse]
  | c :: cs, acc =>
      if c = '.' then String.mk acc.reverse :: splitDotAux cs []
      else splitDotAux cs (c :: acc)

/-- The dot-separated components of a key string (Python `key.split(".")`). -/
def dotComponents (s : String) : List String := splitDotAux s.data []

/-- The three module-level dictionaries as one record, threaded as the state
read by the plot renderer. -/
structure TopologyTables where
  couplingMaps : List (String × List (List Nat))
  qubitCoordinates : List (String × List (List Nat))
  hzPatterns : List (String × List Nat)
deriving DecidableEq

/-- The tables as populated at module load. -/
def moduleTables : TopologyTables :=
  { couplingMaps := coupling_maps, qubitCoordinates := qubit_coordinates,
    hzPatterns := h_z_patterns }

/-- Outcome of the try block's external collaborators (the qiskit import,
`plot_coupling_map` and the matplotlib calls): either everything succeeds,
or some step raises an exception carrying a message. -/
inductive RenderOutcome where
  | ok
  | raises (msg : String)
deriving DecidableEq

/-- Exception propagated out of `plot_topology` to its caller. -/
inductive PyError where
  | keyError (key : String)
  | indexError
deriving DecidableEq

/-- The argument tuple handed to the external collaborator
`plot_coupling_map` inside the try block. -/
structure PlotCall where
  num_qubits : Nat
  qubit_coords : List (List Nat)
  coupling_map : List (List Nat)
  figsize : Nat × Nat
  qubit_color : List String
deriving DecidableEq

/-- Observable result of a `plot_topology` call that returned normally:
the collaborator call made when the try block succeeded, the file the
figure was saved to (when requested), and the error text printed by the
except branch (when the try block raised). -/
structure PlotResult where
  callMade : Option PlotCall
  savedFile : Option String
  printed : Option String
deriving DecidableEq

/-- List assignment `l[i] = v`: raises IndexError when `i` is out of range. -/
def listAssign {α : Type} (l : List α) (i : Nat) (v : α) : Except PyError (List α) :=
  if i < l.length then .ok (l.set i v) else .error .indexError

/-- The indices `np.nonzero(h_z_pattern)[0]`, in increasing order. -/
def nonzeroIndices (pat : List Nat) : List Nat :=
  (List.range pat.length).filter (fun i => pat.getD i 0 != 0)

/-- The loop `for i in np.nonzero(h_z_pattern)[0]: qubit_color[i] = "#ff6f64"`:
assigns the highlight color at each index in turn, raising IndexError at the
first out-of-range index. -/
def assignColors (colors : List String) : List Nat → Except PyError (List String)
  | [] => .ok colors
  | i :: rest =>
      match listAssign colors i "#ff6f64" with
      | .error e => .error e
      | .ok colors2 => assignColors colors2 rest

/-- Embedding of `plot_topology`, reading the given tables.  The dictionary
accesses and the coloring loop run before the try block, so their failures
propagate to the caller; the try block is abstracted by `render`, and a
raise there is caught and its message printed. -/
def plot_topologyIn (t : TopologyTables) (N : Nat) (topology : String)
    (s_coupling_map : String) (b_save_figures : Bool) ( s_file_prfx : String)
    (b_transpose_plot : Bool) (b_alternating_qubits : Bool)
    (render : RenderOutcome) : Except PyError PlotResult :=
  let qubit_color := List.replicate N "#648fff"
  match dictGet t.hzPatterns s_coupling_map with
  | none => .error (.keyError s_coupling_map)
  | some h_z_pattern =>
    match dictGet t.couplingMaps s_coupling_map with
    | none => .error (.keyError s_coupling_map)
    | some coupling_map =>
      match dictGet t.qubitCoordinates s_coupling_map with
      | none => .error (.keyError s_coupling_map)
      | some qubit_coord =>
        let colorsE :=
          if b_alternating_qubits then
            assignColors qubit_color (nonzeroIndices h_z_pattern)
          else .ok qubit_color
        match colorsE with
        | .error e => .error e
        | .ok qubit_color2 =>
          let s_alternating := if b_alternating_qubits then ".alternating" else ""
          let figsize : Nat × Nat :=
            if topology == "plaquette" || topology == "ring" then (4, 7) else (8, 2)
          let fs_qc :=
            if b_transpose_plot then
              ((figsize.2, figsize.1),
                qubit_coord.map (fun ll => [ll.getD 1 0, ll.getD 0 0]))
            else (figsize, qubit_coord)
          match render with
          | .ok =>
              .ok { callMade := some { num_qubits := N, qubit_coords := fs_qc.2,
                                       coupling_map := coupling_map,
                                       figsize := fs_qc.1,
                                       qubit_color := qubit_color2 },
                    savedFile :=
                      if b_save_figures then
                        some ( s_file_prfx ++ s_alternating ++ ".png")
                      else none,
                    printed := none }
          | .raises msg =>
              .ok { callMade := none, savedFile := none, printed := some msg }

/-- `plot_topology` as called by users: reads the module-level tables. -/
def plot_topology (N : Nat) (topology : String) (s_coupling_map : String)
    (b_save_figures : Bool) ( s_file_prfx : String)
    (b_transpose_plot : Bool := false) (b_alternating_qubits : Bool := false)
    (render : RenderOutcome := .ok) : Except PyError PlotResult :=
  plot_topologyIn moduleTables N topology s_coupling_map b_save_figures
    s_file_prfx b_transpose_plot b_alternating_qubits render

/-- State-passing form of the renderer: the three tables are the threaded
state, and the body only ever reads them. -/
def plot_topology_st (N : Nat) (topology : String) (s_coupling_map : String)
    (b_save_figures : Bool) ( s_file_prfx : String)
    (b_transpose_plot : Bool) (b_alternating_qubits : Bool)
    (render : RenderOutcome) : StateM TopologyTables (Except PyError PlotResult) := do
  let t ← get
  pure (plot_topologyIn t N topology s_coupling_map b_save_figures
    s_file_prfx b_transpose_plot b_alternating_qubits render)

end Topologies

namespace TestModel

/-- Value stored in the solver-parameter dictionary of a test scenario. -/
inductive ParamValue where
  | num (q : ℚ)
  | str (s : String)
  | strList (l : List String)
deriving DecidableEq

/-- Comparison mode of a test assertion: `assertEqual` is exact equality,
`assertAlmostEqual` is tolerance-based equality. -/
inductive AssertKind where
  | exact
  | approx
deriving DecidableEq

/-- One assertion `assert*(solver.result['obs-1q'][(c, (q,))][1][-1], v)`:
the final-time value of the single-qubit observable component `c` on qubit
`q` is compared against the expected value `v`. -/
structure FinalValueAssertion where
  component : String
  qubit : Nat
  expected : ℚ
  kind : AssertKind
deriving DecidableEq

/-- A test scenario of `LindbladMPOSolverModel`: the parameter dictionary
passed to the external solver and the assertions made on its result. -/
structure TestScenario where
  params : List (String × ParamValue)
  assertions : List FinalValueAssertion
deriving DecidableEq

/-- The assertion list of `test_All_zero`. -/
def test_All_zero_assertions : List FinalValueAssertion :=
  [{ component := "x", qubit := 0, expected := 0, kind := .exact },
       { component := "y", qubit := 0, expected := 0, kind := .exact },
       { component := "z", qubit := 0, expected := 1, kind := .exact },
       { component := "x", qubit := 1, expected := 0, kind := .exact },
       { component := "y", qubit := 1, expected := 0, kind := .exact },
       { component := "z", qubit := 1, expected := 1, kind := .exact }]

/-- Embedding of `test_All_zero` (the output path is computed at run time
and passed in here). -/
def test_All_zero ( s_output_path : String) : TestScenario :=
  { params := [("tau", .num 1), ("t_final", .num 1), ("N", .num 2),
               ("g_1", .num 0), ("output_files_prefix", .str s_output_path),
               ("1q_components", .strList ["X", "Y", "Z"])],
    assertions := test_All_zero_assertions }

/-- The assertion list of `test_hz_not_zero`. -/
def test_hz_not_zero_assertions : List FinalValueAssertion :=
  [{ component := "x", qubit := 0, expected := 0, kind := .exact },
       { component := "y", qubit := 0, expected := 0, kind := .exact },
       { component := "z", qubit := 0, expected := 1, kind := .exact },
       { component := "x", qubit := 1, expected := 0, kind := .exact },
       { component := "y", qubit := 1, expected := 0, kind := .exact },
       { component := "z", qubit := 1, expected := 1, kind := .exact }]

/-- Embedding of `test_hz_not_zero`. -/
def test_hz_not_zero ( s_output_path : String) : TestScenario :=
  { params := [("tau", .num 1), ("t_final", .num 1), ("N", .num 2),
               ("g_1", .num 0), ("l_x", .num 0), ("h_z", .num 5),
               ("output_files_prefix", .str s_output_path),
               ("1q_components", .strList ["X", "Y", "Z"])],
    assertions := test_hz_not_zero_assertions }

/-- The assertion list of `test_steady_state`. -/
def test_steady_state_assertions : List FinalValueAssertion :=
  [{ component := "x", qubit := 0, expected := 0, kind := .approx },
       { component := "y", qubit := 0, expected := 0, kind := .approx },
       { component := "z", qubit := 0, expected := -1, kind := .approx },
       { component := "x", qubit := 1, expected := 0, kind := .approx },
       { component := "y", qubit := 1, expected := 0, kind := .approx },
       { component := "z", qubit := 1, expected := -1, kind := .approx }]

/-- Embedding of `test_steady_state`. -/
def test_steady_state ( s_output_path : String) : TestScenario :=
  { params := [("tau", .num 1), ("t_final", .num 10), ("N", .num 2),
               ("g_1", .num 5), ("l_x", .num 0), ("h_z", .num 5),
               ("output_files_prefix", .str s_output_path),
               ("1q_components", .strList ["X", "Y", "Z"])],
    assertions := test_steady_state_assertions }

/-- The assertion list of `test_steady_state_2`. -/
def test_steady_state_2_assertions : List FinalValueAssertion :=
  [{ component := "x", qubit := 0, expected := 0, kind := .approx },
       { component := "y", qubit := 0, expected := 0, kind := .approx },
       { component := "z", qubit := 0, expected := -4 / 6, kind := .approx },
       { component := "x", qubit := 1, expected := 0, kind := .approx },
       { component := "y", qubit := 1, expected := 0, kind := .approx },
       { component := "z", qubit := 1, expected := -4 / 6, kind := .approx }]

/-- Embedding of `test_steady_state_2`. -/
def test_steady_state_2 ( s_output_path : String) : TestScenario :=
  { params := [("tau", .num 1), ("t_final", .num 10), ("N", .num 2),
               ("g_1", .num 5), ("g_0", .num 1), ("l_x", .num 0),
               ("h_z", .num 5),
               ("output_files_prefix", .str s_output_path),
               ("1q_components", .strList ["X", "Y", "Z"])],
    assertions := test_steady_state_2_assertions }

end TestModel

namespace Topologies

set_option maxRecDepth 10000

/-- Lookup of a key absent from a dictionary's key column returns `none`. -/
theorem dictGet_eq_none {α : Type} {d : List (String × α)} {k : String}
    (h : k ∉ d.map Prod.fst) : dictGet d k = none := by
  have hf : d.find? (fun p => p.1 == k) = none := by
    rw [List.find?_eq_none]
    intro x hx hbeq
    exact h (List.mem_map.mpr ⟨x, hx, by simpa using hbeq⟩)
  simp [dictGet, hf]

/-- The coloring loop succeeds when every index is within bounds, and it
preserves the length of the color list. -/
theorem assignColors_ok : ∀ (idxs : List Nat) (colors : List String),
    (∀ i ∈ idxs, i < colors.length) →
    ∃ cs, assignColors colors idxs = Except.ok cs ∧ cs.length = colors.length := by
  intro idxs
  induction idxs with
  | nil => exact fun colors _ => ⟨colors, rfl, rfl⟩
  | cons i rest ih =>
      intro colors h
      have hi : i < colors.length := h i (List.mem_cons_self i rest)
      have hset : (colors.set i "#ff6f64").length = colors.length := by simp
      obtain ⟨cs, hcs, hlen⟩ := ih (colors.set i "#ff6f64")
        (fun j hj => by rw [hset]; exact h j (List.mem_cons_of_mem i hj))
      refine ⟨cs, ?_, by rw [hlen, hset]⟩
      simp [assignColors, listAssign, hi, hcs]

/-- The key column of each of the three tables is `allKeys`. -/
theorem tables_key_columns :
    coupling_maps.map Prod.fst = allKeys ∧
    qubit_coordinates.map Prod.fst = allKeys ∧
    h_z_patterns.map Prod.fst = allKeys := by
  refine ⟨?_, ?_, ?_⟩ <;>
    simp [coupling_maps, qubit_coordinates, h_z_patterns, allKeys, List.map_map,
      Function.comp_def]

/-- C1: for every odd N from 3 to 61, the field pattern registered under
topology key "{N}.chain.M" has value 0 at the middle index (N - 1) / 2, and
it alternates between 0 and 1 at neighboring indices. -/
theorem chainM_middle_field_zero :
    ∀ n ≤ 61, 3 ≤ n → n % 2 = 1 →
      ∃ pat, dictGet h_z_patterns (chainMKey n) = some pat ∧
        pat.getD ((n - 1) / 2) 1 = 0 ∧
        ∀ i < n - 1, pat.getD i 2 ≠ pat.getD (i + 1) 2 := by decide

theorem chainM_middle_field_zero_witness :
    5 ≤ 61 ∧ 3 ≤ 5 ∧ 5 % 2 = 1 ∧
      (∃ pat, dictGet h_z_patterns (chainMKey 5) = some pat ∧
        pat.getD 2 1 = 0 ∧ ∀ i < 4, pat.getD i 2 ≠ pat.getD (i + 1) 2) :=
  ⟨by decide, by decide, by decide,
    chainM_middle_field_zero 5 (by decide) (by decide) (by decide)⟩

/-- C2 counterexample: the coupling map registered under "6.plaquette.A"
has 6 edges, not 6 - 1 = 5 as the claim states. -/
theorem plaqA_edge_count_counterexample :
    ∃ cm, dictGet coupling_maps "6.plaquette.A" = some cm ∧
      cm.length = 6 ∧ cm.length ≠ 6 - 1 := by decide

/-- C2 amended: for every even N from 6 to 62, the coupling map registered
under topology key "{N}.plaquette.A" contains exactly N edges (the ring on
N - 2 qubits contributes N - 2 edges and each of the two boundary qubits
contributes one more). -/
theorem plaqA_edge_count :
    ∀ n ≤ 62, 6 ≤ n → n % 2 = 0 →
      ∃ cm, dictGet coupling_maps (plaqAKey n) = some cm ∧ cm.length = n := by decide

theorem plaqA_edge_count_witness :
    8 ≤ 62 ∧ 6 ≤ 8 ∧ 8 % 2 = 0 ∧
      (∃ cm, dictGet coupling_maps (plaqAKey 8) = some cm ∧ cm.length = 8) :=
  ⟨by decide, by decide, by decide, plaqA_edge_count 8 (by decide) (by decide) (by decide)⟩

/-- C4 counterexample: the key "27.falcon" is registered but has two, not
three, dot-separated components. -/
theorem falcon_key_not_three_components :
    "27.falcon" ∈ allKeys ∧ (dotComponents "27.falcon").length ≠ 3 := by decide

/-- C4 amended: every registered key is registered exactly once, its first
dot-separated component is the decimal qubit count of the topology, and it
has exactly three components "{N}.{family}.{variant}" — except exactly the
three hardware keys "7.falcon", "27.falcon" and "127.eagle", which have
exactly two components "{N}.{family}". -/
theorem topology_keys_unique_and_numbered :
    allKeys.Nodup ∧
    ∀ e ∈ allEntries,
      (dotComponents e.key).headD "" = Nat.repr e.nQubits ∧
      (((e.key = "7.falcon" ∨ e.key = "27.falcon" ∨ e.key = "127.eagle") ∧
         (dotComponents e.key).length = 2) ∨
       (¬(e.key = "7.falcon" ∨ e.key = "27.falcon" ∨ e.key = "127.eagle") ∧
         (dotComponents e.key).length = 3)) := by
  exact ⟨by decide, by decide⟩

theorem topology_keys_unique_and_numbered_witness :
    chainMEntry 3 ∈ allEntries ∧
      ((dotComponents (chainMEntry 3).key).headD "" = Nat.repr (chainMEntry 3).nQubits ∧
       ((((chainMEntry 3).key = "7.falcon" ∨ (chainMEntry 3).key = "27.falcon" ∨
           (chainMEntry 3).key = "127.eagle") ∧
          (dotComponents (chainMEntry 3).key).length = 2) ∨
        (¬((chainMEntry 3).key = "7.falcon" ∨ (chainMEntry 3).key = "27.falcon" ∨
            (chainMEntry 3).key = "127.eagle") ∧
          (dotComponents (chainMEntry 3).key).length = 3))) :=
  ⟨by decide, topology_keys_unique_and_numbered.2 (chainMEntry 3) (by decide)⟩

/-- C5: for every N from 2 to 62, the pattern registered under "{N}.chain.E"
has value i % 2 at every index i (so 0 at index 0, strictly alternating by
parity), its coupling map is the path graph, and the key "4.chain.E" yields
the literal coupling map [[0,1],[1,2],[2,3]] and pattern [0,1,0,1]. -/
theorem chainE_pattern_and_path :
    (∀ n ≤ 62, 2 ≤ n →
      dictGet coupling_maps (chainEKey n) =
        some ((List.range (n - 1)).map (fun i => [i, i + 1])) ∧
      ∃ pat, dictGet h_z_patterns (chainEKey n) = some pat ∧
        ∀ i < n, pat.getD i 2 = i % 2) ∧
    dictGet coupling_maps "4.chain.E" = some [[0, 1], [1, 2], [2, 3]] ∧
    dictGet h_z_patterns "4.chain.E" = some [0, 1, 0, 1] := by
  exact ⟨by decide, by decide, by decide⟩

theorem chainE_pattern_and_path_witness :
    4 ≤ 62 ∧ 2 ≤ 4 ∧
      (dictGet coupling_maps (chainEKey 4) =
        some ((List.range 3).map (fun i => [i, i + 1])) ∧
       ∃ pat, dictGet h_z_patterns (chainEKey 4) = some pat ∧
         ∀ i < 4, pat.getD i 2 = i % 2) :=
  ⟨by decide, by decide, chainE_pattern_and_path.1 4 (by decide) (by decide)⟩

/-- C6: in every registered entry, the coordinate list and the field
pattern both have length equal to the entry's qubit count. -/
theorem entry_lengths_match_qubit_count :
    ∀ e ∈ allEntries, e.coords.length = e.nQubits ∧ e.pattern.length = e.nQubits := by
  decide

theorem entry_lengths_match_qubit_count_witness :
    eagle127Entry ∈ allEntries ∧
      (eagle127Entry.coords.length = eagle127Entry.nQubits ∧
       eagle127Entry.pattern.length = eagle127Entry.nQubits) :=
  ⟨by decide, entry_lengths_match_qubit_count eagle127Entry (by decide)⟩

/-- C7: looking up a key that was never registered fails with `none` (the
model of a KeyError) in all three tables; no default value is returned. -/
theorem unregistered_key_lookup_fails :
    ∀ k : String, k ∉ allKeys →
      dictGet coupling_maps k = none ∧ dictGet qubit_coordinates k = none ∧
      dictGet h_z_patterns k = none := by
  intro k hk
  refine ⟨dictGet_eq_none ?_, dictGet_eq_none ?_, dictGet_eq_none ?_⟩
  · rw [tables_key_columns.1]; exact hk
  · rw [tables_key_columns.2.1]; exact hk
  · rw [tables_key_columns.2.2]; exact hk

theorem unregistered_key_lookup_fails_witness :
    "8.chain.M" ∉ allKeys ∧
      (dictGet coupling_maps "8.chain.M" = none ∧
       dictGet qubit_coordinates "8.chain.M" = none ∧
       dictGet h_z_patterns "8.chain.M" = none) :=
  ⟨by decide, unregistered_key_lookup_fails "8.chain.M" (by decide)⟩

/-- C10: every value in every registered field pattern is exactly 0 or 1. -/
theorem field_patterns_binary :
    ∀ p ∈ h_z_patterns, ∀ v ∈ p.2, v = 0 ∨ v = 1 := by decide

theorem field_patterns_binary_witness :
    ("10.plaquette.B", pat_plaqB10) ∈ h_z_patterns ∧
      ∀ v ∈ pat_plaqB10, v = 0 ∨ v = 1 :=
  ⟨by decide, field_patterns_binary ("10.plaquette.B", pat_plaqB10) (by decide)⟩

end Topologies

namespace Topologies

/-- C3 counterexample: calling `plot_topology` with a key that is not
registered propagates a KeyError to the caller (the table lookups happen
before the try block), even when the renderer itself would succeed. -/
theorem plot_topology_unregistered_raises :
    plot_topology 5 "chain" "unregistered.key" false "fig" false false .ok =
      Except.error (PyError.keyError "unregistered.key") := rfl

/-- C3 amended: when the topology key is registered in the three tables and
every nonzero index of its field pattern lies below the qubit-count
argument N, `plot_topology` returns normally for every outcome of the
external renderer — a renderer failure is caught and reported, not
propagated. -/
theorem plot_topology_ok_of_registered
    (N : Nat) (topology s_coupling_map : String) (b_save_figures : Bool)
    ( s_file_prfx : String) (b_transpose_plot b_alternating_qubits : Bool)
    (render : RenderOutcome) (pat : List Nat) (cm co : List (List Nat))
    (hpat : dictGet h_z_patterns s_coupling_map = some pat)
    (hcm : dictGet coupling_maps s_coupling_map = some cm)
    (hco : dictGet qubit_coordinates s_coupling_map = some co)
    (hidx : ∀ i ∈ nonzeroIndices pat, i < N) :
    ∃ r, plot_topology N topology s_coupling_map b_save_figures s_file_prfx
        b_transpose_plot b_alternating_qubits render = Except.ok r := by
  have hb : ∀ i ∈ nonzeroIndices pat, i < (List.replicate N "#648fff").length := by
    simpa using hidx
  obtain ⟨cs, hcs, -⟩ := assignColors_ok (nonzeroIndices pat) _ hb
  unfold plot_topology plot_topologyIn
  simp only [moduleTables]
  rw [hpat, hcm, hco]
  cases b_alternating_qubits with
  | false => cases render <;> exact ⟨_, rfl⟩
  | true =>
      simp only [if_true, hcs]
      cases render <;> exact ⟨_, rfl⟩

theorem plot_topology_ok_of_registered_witness :
    (dictGet h_z_patterns "4.chain.E" = some [0, 1, 0, 1] ∧
     dictGet coupling_maps "4.chain.E" = some [[0, 1], [1, 2], [2, 3]] ∧
     dictGet qubit_coordinates "4.chain.E" = some [[0, 0], [0, 1], [0, 2], [0, 3]] ∧
     ∀ i ∈ nonzeroIndices [0, 1, 0, 1], i < 4) ∧
    ∃ r, plot_topology 4 "chain" "4.chain.E" true "fig" true true (.raises "no qiskit") =
      Except.ok r :=
  ⟨⟨rfl, rfl, rfl, by decide⟩,
    plot_topology_ok_of_registered 4 "chain" "4.chain.E" true "fig" true true
      (.raises "no qiskit") [0, 1, 0, 1] [[0, 1], [1, 2], [2, 3]]
      [[0, 0], [0, 1], [0, 2], [0, 3]] rfl rfl rfl (by decide)⟩

/-- C9: the renderer never mutates the three topology tables: run on any
table state, it returns that state unchanged, and its result is the pure
function of the tables it read (the transposed coordinates and the qubit
colors are fresh local lists). -/
theorem plot_topology_preserves_tables :
    ∀ (t : TopologyTables) (N : Nat) (topology s_coupling_map : String)
      (b_save_figures : Bool) ( s_file_prfx : String)
      (b_transpose_plot b_alternating_qubits : Bool) (render : RenderOutcome),
      ((plot_topology_st N topology s_coupling_map b_save_figures s_file_prfx
          b_transpose_plot b_alternating_qubits render).run t).2 = t ∧
      ((plot_topology_st N topology s_coupling_map b_save_figures s_file_prfx
          b_transpose_plot b_alternating_qubits render).run t).1 =
        plot_topologyIn t N topology s_coupling_map b_save_figures s_file_prfx
          b_transpose_plot b_alternating_qubits render := by
  intro t N topology s_coupling_map b_save pfx tr alt render
  exact ⟨rfl, rfl⟩

theorem plot_topology_preserves_tables_witness :
    ((plot_topology_st 4 "chain" "4.chain.E" false "fig" false false .ok).run
        moduleTables).2 = moduleTables :=
  (plot_topology_preserves_tables moduleTables 4 "chain" "4.chain.E" false "fig"
    false false .ok).1

end Topologies

namespace TestModel

/-- C8: the zero-dissipation scenario (N = 2, g_1 = 0) asserts with exact
equality that both qubits' final X and Y values are 0 and Z is 1, and the
steady-state scenario (N = 2, g_1 = 5, h_z = 5, t_final = 10) asserts with
tolerance-based equality that both qubits' final Z is -1 and X, Y are 0. -/
theorem test_scenarios_expected_values :
    ∀ s_output_path : String,
      (Topologies.dictGet (test_All_zero s_output_path).params "N" = some (.num 2) ∧
       Topologies.dictGet (test_All_zero s_output_path).params "g_1" = some (.num 0) ∧
       (test_All_zero s_output_path).assertions = test_All_zero_assertions) ∧
      (∀ a ∈ test_All_zero_assertions, a.kind = .exact) ∧
      ((⟨"x", 0, 0, .exact⟩ : FinalValueAssertion) ∈ test_All_zero_assertions ∧
       (⟨"y", 0, 0, .exact⟩ : FinalValueAssertion) ∈ test_All_zero_assertions ∧
       (⟨"z", 0, 1, .exact⟩ : FinalValueAssertion) ∈ test_All_zero_assertions ∧
       (⟨"x", 1, 0, .exact⟩ : FinalValueAssertion) ∈ test_All_zero_assertions ∧
       (⟨"y", 1, 0, .exact⟩ : FinalValueAssertion) ∈ test_All_zero_assertions ∧
       (⟨"z", 1, 1, .exact⟩ : FinalValueAssertion) ∈ test_All_zero_assertions) ∧
      (Topologies.dictGet (test_steady_state s_output_path).params "N" = some (.num 2) ∧
       Topologies.dictGet (test_steady_state s_output_path).params "g_1" = some (.num 5) ∧
       Topologies.dictGet (test_steady_state s_output_path).params "h_z" = some (.num 5) ∧
       Topologies.dictGet (test_steady_state s_output_path).params "t_final" = some (.num 10) ∧
       (test_steady_state s_output_path).assertions = test_steady_state_assertions) ∧
      (∀ a ∈ test_steady_state_assertions, a.kind = .approx) ∧
      ((⟨"x", 0, 0, .approx⟩ : FinalValueAssertion) ∈ test_steady_state_assertions ∧
       (⟨"y", 0, 0, .approx⟩ : FinalValueAssertion) ∈ test_steady_state_assertions ∧
       (⟨"z", 0, -1, .approx⟩ : FinalValueAssertion) ∈ test_steady_state_assertions ∧
       (⟨"x", 1, 0, .approx⟩ : FinalValueAssertion) ∈ test_steady_state_assertions ∧
       (⟨"y", 1, 0, .approx⟩ : FinalValueAssertion) ∈ test_steady_state_assertions ∧
       (⟨"z", 1, -1, .approx⟩ : FinalValueAssertion) ∈ test_steady_state_assertions) := by
  intro s_output_path
  exact ⟨⟨rfl, rfl, rfl⟩, by decide, by decide, ⟨rfl, rfl, rfl, rfl, rfl⟩,
    by decide, by decide⟩

theorem test_scenarios_expected_values_witness :
    Topologies.dictGet (test_All_zero "out/").params "N" = some (.num 2) :=
  (test_scenarios_expected_values "out/").1.1

end TestModel
